import Mathlib

/-!
Shallow embedding of `lib/ansible/modules/cloud/cloudstack/cs_volume_snapshot.py`,
the CloudStack volume-snapshot module, together with theorems settling the
specification claims about it.

The module body (class `AnsibleCloudStackVolumeSnapshot` and `main`) is embedded
directly from the source.  The shared base class `AnsibleCloudStack` and the
`AnsibleModule` runtime live in `ansible.module_utils`, outside this source
tree; the few facts about them the module relies on (scope resolvers, parameter
defaulting and choice validation, check-mode flag, `query_api` dispatch,
`poll_job`) are modelled from the spec, each marked in its doc comment.
-/

namespace CsVolumeSnapshot

/-- A snapshot record as returned inside a `listSnapshots` response.  Only the
fields the module reads are modelled: `_get_by_key('id', ...)` projects the id,
and the name is the lookup key. -/
structure Snapshot where
  id : String
  name : String
deriving DecidableEq

/-- A volume record inside a `listVolumes` response.  The module never
successfully projects a field out of one (see `get_volume`), so only an id is
kept. -/
structure Volume where
  id : String
deriving DecidableEq

/-- An asynchronous job handle returned by a mutating API call. -/
structure Job where
  id : String
deriving DecidableEq

/-- The argument dictionary the module passes to `listSnapshots`
(source lines 218-223): name plus account/domain/project scope. -/
structure SnapListArgs where
  name : String
  account : Option String
  domainid : Option String
  projectid : Option String
deriving DecidableEq

/-- The argument dictionary the module passes to `listVolumes`
(source lines 230-235): account/domain/project/zone scope.  Note the source
does not filter by the `volume` parameter. -/
structure VolListArgs where
  account : Option String
  domainid : Option String
  projectid : Option String
  zoneid : Option String
deriving DecidableEq

/-- One remote API interaction issued through `query_api` or `poll_job`,
recorded with the exact argument values the module passes. -/
inductive ApiCall where
  | listSnapshots (args : SnapListArgs)
  | listVolumes (args : VolListArgs)
  | createSnapshot (volumeid policyid name : Option String) (locationtype : String)
      (quiescevm asyncbackup : Option Bool) (account domainid : Option String)
  | createSnapshotFromVMSnapshot (volumeid name vmsnapshotid : Option String)
  | deleteSnapshot (id : Option String)
  | pollJob (job : Job)
deriving DecidableEq

/-- Whether a call mutates remote state.  Listings and job polling are
read-only; the create and delete commands mutate. -/
def ApiCall.isMutating : ApiCall → Bool
  | ApiCall.listSnapshots _ => false
  | ApiCall.listVolumes _ => false
  | ApiCall.pollJob _ => false
  | _ => true

/-- Whether a call is one of the two snapshot-creation commands. -/
def ApiCall.isCreate : ApiCall → Bool
  | ApiCall.createSnapshot _ _ _ _ _ _ _ _ => true
  | ApiCall.createSnapshotFromVMSnapshot _ _ _ => true
  | _ => false

/-- Whether a call is one of the two read-only listing commands. -/
def ApiCall.isListing : ApiCall → Bool
  | ApiCall.listSnapshots _ => true
  | ApiCall.listVolumes _ => true
  | _ => false

/-- Errors an invocation can surface.  `validationError` is the parameter
check performed by the runtime before the module body runs; `nameError`
is Python resolving an undefined variable; `attributeError` is Python
resolving an undefined method. -/
inductive RunError where
  | validationError (param : String)
  | nameError (var : String)
  | attributeError (meth : String)
deriving DecidableEq

/-- Modelled from the spec: the scope resolvers `get_account(key='name')`,
`get_domain(key='id')`, `get_project(key='id')`, `get_zone(key='id')` and
`get_snapshot_policy('id')` are inherited from `AnsibleCloudStack`
(`ansible.module_utils.cloudstack`), which is not part of this source tree.
Per spec §3/§4.1 they resolve the owning account/domain/project scope, the
zone, and the backup policy id; they are modelled as an opaque resolved
scope supplied to the invocation. -/
structure Scope where
  accountName : Option String
  domainId : Option String
  projectId : Option String
  zoneId : Option String
  policyId : Option String

/-- Modelled from the spec: the remote API behind `query_api`/`poll_job`
(spec §6, RemoteQueryCapability).  `listSnapshots`/`listVolumes` give the
server-side filtered listings (a response is truthy exactly when non-empty,
and `[...][0]` is its head); each mutating command may answer with an async
job handle (`none` models a falsy response); `pollJob` resolves a job to a
finalized record. -/
structure Remote where
  listSnapshots : SnapListArgs → List Snapshot
  listVolumes : VolListArgs → List Volume
  createSnapshotResult : Option Job
  createFromVMSnapshotResult : Option Job
  deleteSnapshotResult : Option Job
  pollJob : Job → Snapshot

/-- The raw parameters supplied by the caller, before the runtime applies
defaults and choice validation (`none` = parameter not provided). -/
structure RawParams where
  name : Option String
  volume : Option String
  vmsnapshot : Option String
  state : Option String
  locationtype : Option String
  policy : Option String
  asyncbackup : Option Bool
  quiescevm : Option Bool
  domain : Option String
  account : Option String
  poll_async : Option Bool
deriving DecidableEq

/-- The parameters as the module body sees them (`self.module.params`),
after defaulting and validation. -/
structure Params where
  name : Option String
  volume : Option String
  vmsnapshot : Option String
  state : String
  locationtype : String
  policy : Option String
  asyncbackup : Option Bool
  quiescevm : Option Bool
  domain : Option String
  account : Option String
  poll_async : Bool
deriving DecidableEq

/-- The `state` choices declared in the argument spec (source line 292).
Note the source declares `revert`, not `reverted`. -/
def state_choices : List String := ["present", "absent", "revert"]

/-- The `locationtype` choices declared in the argument spec (source line 293). -/
def locationtype_choices : List String := ["primary", "secondary"]

/-- Modelled from the spec: `AnsibleModule` (`ansible.module_utils.basic`,
not part of this source tree) applies the declared default when a parameter
is not provided and rejects a provided value outside the declared choices
before the module body runs (spec §6: the invocation surface constrains
`state` and `locationtype` to their declared choice sets). -/
def check_choice (choices : List String) (dflt : String) (pname : String)
    (v : Option String) : Except RunError String :=
  match v with
  | none => Except.ok dflt
  | some s => if s ∈ choices then Except.ok s else Except.error (RunError.validationError pname)

/-- Parameter processing for the argument spec declared in `main`
(source lines 287-300): `state` defaults to `present` within `state_choices`,
`locationtype` defaults to `primary` within `locationtype_choices`,
`poll_async` defaults to true; no parameter is declared required and no
`required_if` constraint exists. -/
def validate_params (raw : RawParams) : Except RunError Params :=
  match check_choice state_choices "present" "state" raw.state with
  | Except.error e => Except.error e
  | Except.ok st =>
    match check_choice locationtype_choices "primary" "locationtype" raw.locationtype with
    | Except.error e => Except.error e
    | Except.ok lt =>
      Except.ok
        { name := raw.name
          volume := raw.volume
          vmsnapshot := raw.vmsnapshot
          state := st
          locationtype := lt
          policy := raw.policy
          asyncbackup := raw.asyncbackup
          quiescevm := raw.quiescevm
          domain := raw.domain
          account := raw.account
          poll_async := raw.poll_async.getD true }

/-- The `listVolumes` argument dictionary `get_volume` builds from the
resolved scope (source lines 230-235). -/
def vol_args (s : Scope) : VolListArgs :=
  { account := s.accountName, domainid := s.domainId,
    projectid := s.projectId, zoneid := s.zoneId }

/-- `get_snapshot` (source lines 213-227): if the `name` parameter is unset,
return `None` without any remote call; otherwise issue `listSnapshots` with
name and account/domain/project scope and return the first record of a
truthy (non-empty) response, else `None`.  The result is paired with the
trace of remote calls issued. -/
def get_snapshot (p : Params) (scope : Scope) (remote : Remote) :
    Option Snapshot × List ApiCall :=
  match p.name with
  | none => (none, [])
  | some n =>
    let args : SnapListArgs :=
      { name := n
        account := scope.accountName
        domainid := scope.domainId
        projectid := scope.projectId }
    ((remote.listSnapshots args).head?, [ApiCall.listSnapshots args])

/-- `get_volume` (source lines 229-239): issue `listVolumes` with the
account/domain/project/zone scope (the `volume` parameter is not used).  On a
truthy (non-empty) response the source evaluates
`self._get_by_key(key, snapshots['snapshot'][0])`, where `snapshots` is not
defined in any enclosing scope, so Python raises `NameError`; on an empty
response it returns `None`. -/
def get_volume (scope : Scope) (remote : Remote) :
    Except RunError (Option String) × List ApiCall :=
  let args : VolListArgs :=
    { account := scope.accountName
      domainid := scope.domainId
      projectid := scope.projectId
      zoneid := scope.zoneId }
  if (remote.listVolumes args).isEmpty then
    (Except.ok none, [ApiCall.listVolumes args])
  else
    (Except.error (RunError.nameError "snapshots"), [ApiCall.listVolumes args])

/-- Outcome of an invocation: either the module exits normally, carrying the
value the action method returned to `main` (always `None` in this source:
no method has a `return` statement) and the final `changed` flag, or it
aborts with an error. -/
inductive Outcome where
  | ok (ret : Option Snapshot) (changed : Bool)
  | err (e : RunError)
deriving DecidableEq

/-- `create_snapshot` (source lines 241-258): build the argument dict
(resolving the volume id — which raises if the volume listing is non-empty —
and the policy id), set `changed=True`, and unless in check mode issue
`createSnapshot`; if the response is truthy and `poll_async` is set, poll the
job into a local that is then discarded.  The method returns `None`. -/
def create_snapshot (p : Params) (scope : Scope) (remote : Remote)
    (check_mode : Bool) : Outcome × List ApiCall :=
  let v := get_volume scope remote
  match v.1 with
  | Except.error e => (Outcome.err e, v.2)
  | Except.ok volumeid =>
    let c := ApiCall.createSnapshot volumeid scope.policyId p.name p.locationtype
      p.quiescevm p.asyncbackup scope.accountName scope.domainId
    if check_mode then
      (Outcome.ok none true, v.2)
    else
      match remote.createSnapshotResult with
      | none => (Outcome.ok none true, v.2 ++ [c])
      | some job =>
        if p.poll_async then
          (Outcome.ok none true, v.2 ++ [c, ApiCall.pollJob job])
        else
          (Outcome.ok none true, v.2 ++ [c])

/-- `create_from_vmsnapshot` (source lines 260-272): build the argument dict —
volume id via `get_volume` (which raises if the volume listing is non-empty),
name, and `vmsnapshotid` via `get_snapshot('id')`, i.e. a volume-snapshot
lookup keyed on the `name` parameter (the `vmsnapshot` parameter is not
consulted) — set `changed=True`, and unless in check mode issue
`createSnapshotFromVMSnapshot`, optionally polling the job into a discarded
local.  The method returns `None`. -/
def create_from_vmsnapshot (p : Params) (scope : Scope) (remote : Remote)
    (check_mode : Bool) : Outcome × List ApiCall :=
  let v := get_volume scope remote
  match v.1 with
  | Except.error e => (Outcome.err e, v.2)
  | Except.ok volumeid =>
    let s := get_snapshot p scope remote
    let vmsnapshotid := Option.map Snapshot.id s.1
    let c := ApiCall.createSnapshotFromVMSnapshot volumeid p.name vmsnapshotid
    if check_mode then
      (Outcome.ok none true, v.2 ++ s.2)
    else
      match remote.createFromVMSnapshotResult with
      | none => (Outcome.ok none true, v.2 ++ s.2 ++ [c])
      | some job =>
        if p.poll_async then
          (Outcome.ok none true, v.2 ++ s.2 ++ [c, ApiCall.pollJob job])
        else
          (Outcome.ok none true, v.2 ++ s.2 ++ [c])

/-- `delete_snapshot` (source lines 274-284): build the argument dict with
`id` from `get_snapshot('id')` (no existence check: `id` may be `None`),
set `changed=True`, and unless in check mode issue `deleteSnapshot`,
optionally polling the job into a discarded local.  The method returns
`None`. -/
def delete_snapshot (p : Params) (scope : Scope) (remote : Remote)
    (check_mode : Bool) : Outcome × List ApiCall :=
  let s := get_snapshot p scope remote
  let c := ApiCall.deleteSnapshot (Option.map Snapshot.id s.1)
  if check_mode then
    (Outcome.ok none true, s.2)
  else
    match remote.deleteSnapshotResult with
    | none => (Outcome.ok none true, s.2 ++ [c])
    | some job =>
      if p.poll_async then
        (Outcome.ok none true, s.2 ++ [c, ApiCall.pollJob job])
      else
        (Outcome.ok none true, s.2 ++ [c])

/-- `main` (source lines 286-321): validate parameters against the argument
spec, then dispatch on `state`: `absent` deletes; `reverted` calls
`self.revert_to_snapshot()`, a method the class does not define, which raises
`AttributeError` (and is in fact unreachable, `reverted` not being among the
declared choices); any other accepted state (`present` or `revert`) runs the
create path, choosing `create_from_vmsnapshot` exactly when the `vmsnapshot`
parameter is set.  The outcome carries the method return value (`None`) as
handed to `get_result` and the `changed` flag. -/
def run_module (raw : RawParams) (check_mode : Bool) (scope : Scope)
    (remote : Remote) : Outcome × List ApiCall :=
  match validate_params raw with
  | Except.error e => (Outcome.err e, [])
  | Except.ok p =>
    if p.state = "absent" then
      delete_snapshot p scope remote check_mode
    else if p.state = "reverted" then
      (Outcome.err (RunError.attributeError "revert_to_snapshot"), [])
    else if p.vmsnapshot.isSome then
      create_from_vmsnapshot p scope remote check_mode
    else
      create_snapshot p scope remote check_mode

/-! Concrete fixtures used to exercise the embedding at specific inputs. -/

/-- A scope where nothing is resolved (no account/domain/project/zone/policy). -/
def scope0 : Scope :=
  { accountName := none, domainId := none, projectId := none, zoneId := none,
    policyId := none }

/-- A remote with no snapshots, no volumes, and falsy responses to every
mutating command. -/
def remote_empty : Remote :=
  { listSnapshots := fun _ => []
    listVolumes := fun _ => []
    createSnapshotResult := none
    createFromVMSnapshotResult := none
    deleteSnapshotResult := none
    pollJob := fun _ => { id := "", name := "" } }

/-- A remote where a snapshot named `s1` (id `id1`) exists, the volume listing
is empty, and mutating commands answer falsy. -/
def remote_s1 : Remote :=
  { listSnapshots := fun args =>
      if args.name = "s1" then [{ id := "id1", name := "s1" }] else []
    listVolumes := fun _ => []
    createSnapshotResult := none
    createFromVMSnapshotResult := none
    deleteSnapshotResult := none
    pollJob := fun _ => { id := "id1", name := "s1" } }

/-- A remote where snapshot `s1` (id `id1`) exists and `deleteSnapshot`
answers with async job `job1`, which polls to the `s1` record. -/
def remote_s1_job : Remote :=
  { listSnapshots := fun args =>
      if args.name = "s1" then [{ id := "id1", name := "s1" }] else []
    listVolumes := fun _ => []
    createSnapshotResult := none
    createFromVMSnapshotResult := none
    deleteSnapshotResult := some { id := "job1" }
    pollJob := fun _ => { id := "id1", name := "s1" } }

/-- Raw parameters with nothing provided. -/
def raw0 : RawParams :=
  { name := none, volume := none, vmsnapshot := none, state := none,
    locationtype := none, policy := none, asyncbackup := none,
    quiescevm := none, domain := none, account := none, poll_async := none }

/-- The `listVolumes` argument dictionary built from an unresolved scope. -/
def volargs0 : VolListArgs :=
  { account := none, domainid := none, projectid := none, zoneid := none }

/-- The `listSnapshots` argument dictionary for name `s1` in an unresolved
scope. -/
def snapargs_s1 : SnapListArgs :=
  { name := "s1", account := none, domainid := none, projectid := none }

/-- Raw parameters: `name=s1`, `volume=v1`, `state=present`. -/
def raw_present_s1 : RawParams :=
  { raw0 with name := some "s1", volume := some "v1", state := some "present" }

/-- Raw parameters: `name=s1`, `state=absent`. -/
def raw_absent_s1 : RawParams :=
  { raw0 with name := some "s1", state := some "absent" }

/-- Raw parameters: `name=s1`, `state=reverted`. -/
def raw_reverted_s1 : RawParams :=
  { raw0 with name := some "s1", state := some "reverted" }

/-- Raw parameters: `name=s1`, `state=revert` (the choice the argument spec
actually declares). -/
def raw_revert_s1 : RawParams :=
  { raw0 with name := some "s1", state := some "revert" }

/-- Raw parameters: `name=s1` only (state defaulted, no volume). -/
def raw_name_only_s1 : RawParams :=
  { raw0 with name := some "s1" }

/-- Raw parameters: `name=s1`, `state=absent`, `poll_async=true`. -/
def raw_absent_poll_s1 : RawParams :=
  { raw0 with name := some "s1", state := some "absent", poll_async := some true }

/-- Raw parameters: `name=s1`, `volume=v1`, `vmsnapshot=vs1`, `state=present`. -/
def raw_vmsnap_s1 : RawParams :=
  { raw0 with
      name := some "s1", volume := some "v1", vmsnapshot := some "vs1",
      state := some "present" }

/-- Raw parameters: `state=absent` only, `name` not provided. -/
def raw_absent_noname : RawParams :=
  { raw0 with state := some "absent" }

/-- A remote whose volume listing is non-empty (one volume `vid1`); otherwise
like `remote_empty`. -/
def remote_vol : Remote :=
  { remote_empty with listVolumes := fun _ => [{ id := "vid1" }] }

/-- The validated parameters `validate_params raw_present_s1` produces. -/
def params_present_s1 : Params :=
  { name := some "s1", volume := some "v1", vmsnapshot := none, state := "present",
    locationtype := "primary", policy := none, asyncbackup := none,
    quiescevm := none, domain := none, account := none, poll_async := true }

/-- The validated parameters `validate_params raw_absent_noname` produces. -/
def params_absent_noname : Params :=
  { name := none, volume := none, vmsnapshot := none, state := "absent",
    locationtype := "primary", policy := none, asyncbackup := none,
    quiescevm := none, domain := none, account := none, poll_async := true }

/-! Helper lemmas shared by the claim theorems. -/

theorem get_volume_snd (s : Scope) (r : Remote) :
    (get_volume s r).2 = [ApiCall.listVolumes (vol_args s)] := by
  simp only [get_volume, vol_args]
  split <;> rfl

theorem get_volume_err (s : Scope) (r : Remote)
    (h : r.listVolumes (vol_args s) ≠ []) :
    get_volume s r =
      (Except.error (RunError.nameError "snapshots"),
       [ApiCall.listVolumes (vol_args s)]) := by
  simp only [get_volume, vol_args] at h ⊢
  rw [if_neg]
  simpa [List.isEmpty_iff] using h

theorem get_snapshot_snd_filter_mut (p : Params) (s : Scope) (r : Remote) :
    (get_snapshot p s r).2.filter ApiCall.isMutating = [] := by
  cases hn : p.name <;> simp [get_snapshot, hn, ApiCall.isMutating]

theorem create_snapshot_fst_cm (p : Params) (s : Scope) (r : Remote) :
    (create_snapshot p s r true).1 = (create_snapshot p s r false).1 := by
  simp only [create_snapshot]
  cases h : (get_volume s r).1 with
  | error e => simp [h]
  | ok v =>
    simp only [h]
    cases hr : r.createSnapshotResult with
    | none => simp
    | some job => cases hp : p.poll_async <;> simp

theorem create_snapshot_check_filter_mut (p : Params) (s : Scope) (r : Remote) :
    (create_snapshot p s r true).2.filter ApiCall.isMutating = [] := by
  simp only [create_snapshot]
  cases h : (get_volume s r).1 <;>
    simp [h, get_volume_snd, ApiCall.isMutating]

theorem create_from_vmsnapshot_fst_cm (p : Params) (s : Scope) (r : Remote) :
    (create_from_vmsnapshot p s r true).1 = (create_from_vmsnapshot p s r false).1 := by
  simp only [create_from_vmsnapshot]
  cases h : (get_volume s r).1 with
  | error e => simp [h]
  | ok v =>
    simp only [h]
    cases hr : r.createFromVMSnapshotResult with
    | none => simp
    | some job => cases hp : p.poll_async <;> simp

theorem create_from_vmsnapshot_check_filter_mut (p : Params) (s : Scope) (r : Remote) :
    (create_from_vmsnapshot p s r true).2.filter ApiCall.isMutating = [] := by
  simp only [create_from_vmsnapshot]
  cases h : (get_volume s r).1 <;>
    simp [h, get_volume_snd, get_snapshot_snd_filter_mut, ApiCall.isMutating,
      List.filter_append]

theorem delete_snapshot_fst_cm (p : Params) (s : Scope) (r : Remote) :
    (delete_snapshot p s r true).1 = (delete_snapshot p s r false).1 := by
  simp only [delete_snapshot]
  cases hr : r.deleteSnapshotResult with
  | none => simp
  | some job => cases hp : p.poll_async <;> simp

theorem delete_snapshot_check_filter_mut (p : Params) (s : Scope) (r : Remote) :
    (delete_snapshot p s r true).2.filter ApiCall.isMutating = [] := by
  simp [delete_snapshot, get_snapshot_snd_filter_mut]

/-- C1: the claim fails on the code.  With `state=present`, `name=s1` and a
snapshot named `s1` already existing in the remote listing (and an empty
volume listing, so the volume lookup does not crash), the module performs no
existence lookup, still issues a `createSnapshot` call, reports
`changed=true`, and returns no record — contradicting "zero create calls,
`changed=false`, return the existing record". -/
theorem c1_present_existing_still_creates :
    remote_s1.listSnapshots snapargs_s1 = [{ id := "id1", name := "s1" }] ∧
    run_module raw_present_s1 false scope0 remote_s1 =
      (Outcome.ok none true,
       [ApiCall.listVolumes volargs0,
        ApiCall.createSnapshot none none (some "s1") "primary" none none none none]) := by
  constructor
  · rfl
  · rfl

/-- C2: the no-match half of the claim fails on the code.  With
`state=absent`, `name=s1` and no matching snapshot, the module still issues
a `deleteSnapshot` call — with `id=None` — and reports `changed=true`,
contradicting "zero delete calls and `changed=false`". -/
theorem c2_absent_no_match_still_deletes :
    remote_empty.listSnapshots snapargs_s1 = [] ∧
    run_module raw_absent_s1 false scope0 remote_empty =
      (Outcome.ok none true,
       [ApiCall.listSnapshots snapargs_s1, ApiCall.deleteSnapshot none]) := by
  constructor
  · rfl
  · rfl

/-- C3: the claim fails on the code.  With `state=reverted` the argument
spec (choices `present`/`absent`/`revert`) rejects the value before the
module body runs: the run aborts with a parameter validation error on
`state`, not `NotFoundError`, and issues no call at all; no lookup or
revert path is reachable. -/
theorem c3_reverted_rejected_not_notfound :
    run_module raw_reverted_s1 false scope0 remote_empty =
      (Outcome.err (RunError.validationError "state"), []) := by
  rfl

/-- C4: the claim fails on the code.  The accepted state values are
`present`, `absent` and `revert` — not `reverted`, which the argument spec
rejects — and the accepted `revert` value falls through the dispatch into
the create path: it issues `createSnapshot`, never a revert command. -/
theorem c4_state_surface_mismatch :
    run_module raw_reverted_s1 false scope0 remote_s1 =
      (Outcome.err (RunError.validationError "state"), []) ∧
    run_module raw_revert_s1 false scope0 remote_s1 =
      (Outcome.ok none true,
       [ApiCall.listVolumes volargs0,
        ApiCall.createSnapshot none none (some "s1") "primary" none none none none]) := by
  constructor
  · rfl
  · rfl

/-- C5: the claim fails on the code.  With `state` left unset (defaulted to
`present`) and neither `volume` nor `vmsnapshot` provided — a spec that
violates the "volume is required when creating from a volume" precondition —
the argument spec declares no required-parameter constraint: the run does
not abort with a validation error, it issues the remote `listVolumes` call
and then `createSnapshot` with `volumeid=None`. -/
theorem c5_missing_volume_not_validated :
    run_module raw_name_only_s1 false scope0 remote_empty =
      (Outcome.ok none true,
       [ApiCall.listVolumes volargs0,
        ApiCall.createSnapshot none none (some "s1") "primary" none none none none]) := by
  rfl

/-- C7: the claim fails on the code.  A delete with `poll_async=true` whose
`deleteSnapshot` call answers with job `job1` does poll the job — the trace
ends with the poll — but the polled record is assigned to a local variable
and discarded, and the method returns `None`: the outcome carries no
record, so the caller never receives the finalized `SnapshotRecord`. -/
theorem c7_poll_result_discarded :
    run_module raw_absent_poll_s1 false scope0 remote_s1_job =
      (Outcome.ok none true,
       [ApiCall.listSnapshots snapargs_s1,
        ApiCall.deleteSnapshot (some "id1"),
        ApiCall.pollJob { id := "job1" }]) := by
  rfl

/-- C8: the claim fails on the code.  With `state=present`, `name=s1` and
`vmsnapshot=vs1`, the dispatch does select the VM-snapshot path, but the
`vmsnapshotid` argument is resolved by `get_snapshot` — a `listSnapshots`
volume-snapshot lookup keyed on the `name` parameter (`s1`) — and the
`vmsnapshot` parameter `vs1` is never used in any lookup: no listing with
name `vs1` is issued, and the id passed as `vmsnapshotid` is `id1`, the id
of the volume snapshot named `s1`. -/
theorem c8_vmsnapshot_param_unused_in_lookup :
    run_module raw_vmsnap_s1 false scope0 remote_s1 =
      (Outcome.ok none true,
       [ApiCall.listVolumes volargs0,
        ApiCall.listSnapshots snapargs_s1,
        ApiCall.createSnapshotFromVMSnapshot none (some "s1") (some "id1")]) := by
  rfl

/-- C6: confirmed.  For every raw parameter set, scope and remote state, a
check-mode (dry-run) invocation issues no mutating call — the mutating calls
filtered out of its trace are `[]` — and its outcome (the reported `changed`
flag, the returned record, or the error) is exactly the outcome the live run
of the same spec against the same remote state produces. -/
theorem c6_check_mode_frame (raw : RawParams) (s : Scope) (r : Remote) :
    (run_module raw true s r).1 = (run_module raw false s r).1 ∧
    (run_module raw true s r).2.filter ApiCall.isMutating = [] := by
  simp only [run_module]
  cases hv : validate_params raw with
  | error e => simp
  | ok p =>
    simp only
    by_cases h1 : p.state = "absent"
    · simp only [if_pos h1]
      exact ⟨delete_snapshot_fst_cm p s r, delete_snapshot_check_filter_mut p s r⟩
    · simp only [if_neg h1]
      by_cases h2 : p.state = "reverted"
      · simp only [if_pos h2]
        simp
      · simp only [if_neg h2]
        by_cases h3 : p.vmsnapshot.isSome
        · simp only [if_pos h3]
          exact ⟨create_from_vmsnapshot_fst_cm p s r,
                 create_from_vmsnapshot_check_filter_mut p s r⟩
        · simp only [if_neg h3]
          exact ⟨create_snapshot_fst_cm p s r,
                 create_snapshot_check_filter_mut p s r⟩

/-- C9: confirmed.  Whenever the dispatch reaches a create path (the
validated state is neither `absent` nor `reverted`) and the remote volume
listing is non-empty, `get_volume` evaluates the undefined variable
`snapshots` and the run aborts with that `NameError`; no create command
appears in the trace. -/
theorem c9_volume_lookup_crashes_before_create (raw : RawParams) (p : Params)
    (s : Scope) (r : Remote) (cm : Bool)
    (hv : validate_params raw = Except.ok p)
    (h1 : p.state ≠ "absent") (h2 : p.state ≠ "reverted")
    (hne : r.listVolumes (vol_args s) ≠ []) :
    (run_module raw cm s r).1 = Outcome.err (RunError.nameError "snapshots") ∧
    (run_module raw cm s r).2.filter ApiCall.isCreate = [] := by
  have hgv := get_volume_err s r hne
  simp only [run_module, hv, if_neg h1, if_neg h2]
  by_cases h3 : p.vmsnapshot.isSome <;>
    simp [h3, create_snapshot, create_from_vmsnapshot, hgv, ApiCall.isCreate]

/-- Witness for C9: at `state=present`, `name=s1`, `volume=v1` against a
remote whose volume listing holds one volume, the live run aborts with the
`NameError` on `snapshots` and issues no create call. -/
theorem c9_witness :
    (run_module raw_present_s1 false scope0 remote_vol).1 =
      Outcome.err (RunError.nameError "snapshots") ∧
    (run_module raw_present_s1 false scope0 remote_vol).2.filter ApiCall.isCreate = [] :=
  c9_volume_lookup_crashes_before_create raw_present_s1 params_present_s1 scope0
    remote_vol false rfl (by decide) (by decide) (by decide)

/-- C10: confirmed.  When the `name` parameter is unset, `get_snapshot`
returns `None` with an empty trace — no remote list call — and a
`state=absent` run still issues `deleteSnapshot` with `id=None` (the first
call of its trace) and reports `changed=true` instead of skipping the
delete; its trace contains no listing call at all. -/
theorem c10_absent_without_name_deletes_none (raw : RawParams) (p : Params)
    (sc : Scope) (r : Remote)
    (hv : validate_params raw = Except.ok p)
    (hname : p.name = none) (hstate : p.state = "absent") :
    get_snapshot p sc r = (none, []) ∧
    (run_module raw false sc r).1 = Outcome.ok none true ∧
    (run_module raw false sc r).2.head? = some (ApiCall.deleteSnapshot none) ∧
    (run_module raw false sc r).2.filter ApiCall.isListing = [] := by
  have hgs : get_snapshot p sc r = (none, []) := by simp [get_snapshot, hname]
  refine ⟨hgs, ?_⟩
  simp only [run_module, hv, if_pos hstate]
  simp only [delete_snapshot, hgs]
  cases hr : r.deleteSnapshotResult with
  | none => simp [ApiCall.isListing]
  | some job => cases hp : p.poll_async <;> simp [hp, ApiCall.isListing]

/-- Witness for C10: at `state=absent` with no `name` against the empty
remote, the lookup returns `None` with no list call and the run issues
`deleteSnapshot` with `id=None`, reporting `changed=true`. -/
theorem c10_witness :
    get_snapshot params_absent_noname scope0 remote_empty = (none, []) ∧
    (run_module raw_absent_noname false scope0 remote_empty).1 = Outcome.ok none true ∧
    (run_module raw_absent_noname false scope0 remote_empty).2.head? =
      some (ApiCall.deleteSnapshot none) ∧
    (run_module raw_absent_noname false scope0 remote_empty).2.filter
      ApiCall.isListing = [] :=
  c10_absent_without_name_deletes_none raw_absent_noname params_absent_noname
    scope0 remote_empty rfl rfl rfl

end CsVolumeSnapshot
